import Mathlib

/-!
Shallow embedding of the VendoPrint payment-acquisition and job-authorization
core: the job state and web handlers of src/app.py and the pulse decoder of
src/modules/payment_system.py.  Money amounts and wall-clock timestamps are
Python floats in the source; they are modelled as exact rationals (ℚ).
Status, orientation and color-mode fields are Python strings and stay strings.
`None`-able Python fields become `Option`; Python truthiness of such fields
(`if pending_coin:`, `if not file_path:`) is modelled explicitly, since it
differs from `is not None` on the values 0 and "".
-/

/-- Python truthiness of an optional number: `None` and `0` are falsy. -/
def py_truthy_num : Option ℚ → Bool
  | none => false
  | some v => decide (v ≠ 0)

/-- Python truthiness of an optional string: `None` and the empty string are falsy. -/
def py_truthy_str : Option String → Bool
  | none => false
  | some s => decide (s ≠ "")

/-- Boolean success test for an `Except` result. -/
def except_is_ok {ε α : Type} : Except ε α → Bool
  | Except.ok _ => true
  | Except.error _ => false

/-- The `page_range` request field: Python `'all'` or a `{start, end}` dict
(1-based inclusive); the surrounding `Option` is Python `None`. -/
inductive PageRange where
  | all : PageRange
  | range (startPage endPage : ℤ) : PageRange
deriving DecidableEq

/-- The global `current_job` dict of src/app.py (lines 45-56 and 178-193). -/
structure Job where
  file_path : Option String
  file_type : String
  pages : ℤ
  copies : ℤ
  page_range : Option PageRange
  orientation : String
  color_mode : String
  cost : ℚ
  paid : ℚ
  status : String
  current_page : ℤ
  total_pages : ℤ
  pending_coin : Option ℚ
  pending_coin_time : ℚ
deriving DecidableEq

/-- CONFIG['PRICE_PER_PAGE_BW'] (src/app.py line 60). -/
def PRICE_PER_PAGE_BW : ℚ := 5

/-- CONFIG['PRICE_PER_PAGE_COLOR'] (src/app.py line 61). -/
def PRICE_PER_PAGE_COLOR : ℚ := 10

/-- CONFIG['COIN_VALUES'] (src/app.py line 63). -/
def COIN_VALUES : List ℚ := [1, 5, 10, 20]

/-- `upload_file` success path (src/app.py lines 178-193): the whole job is
replaced by a fresh record in `uploaded` status with paid/cost zeroed and no
pending coin. -/
def upload (path : String) (ftype : String) (pages : ℤ) : Job :=
  { file_path := some path
    file_type := ftype
    pages := pages
    copies := 1
    page_range := none
    orientation := "portrait"
    color_mode := "grayscale"
    cost := 0
    paid := 0
    status := "uploaded"
    current_page := 0
    total_pages := 0
    pending_coin := none
    pending_coin_time := 0 }

/-- Response body of `/api/calculate-cost` (src/app.py lines 271-276). -/
structure CostResponse where
  cost : ℚ
  pages : ℤ
  price_per_page : ℚ
deriving DecidableEq

/-- `calculate_cost` (src/app.py lines 239-276): computes the actual page
count from the page range and copies, picks the per-page price from the color
mode, stores the chosen settings and the total cost into the job, and returns
the response body. -/
def calculate_cost (job : Job) (pages copies : ℤ) (color_mode orientation : String)
    (page_range : Option PageRange) : Job × CostResponse :=
  let actual_pages : ℤ :=
    match page_range with
    | some (PageRange.range s e) => (e - s + 1) * copies
    | _ => pages * copies
  let price_per_page : ℚ :=
    if color_mode = "color" then PRICE_PER_PAGE_COLOR else PRICE_PER_PAGE_BW
  let total_cost : ℚ := (actual_pages : ℚ) * price_per_page
  ({ job with
      copies := copies
      page_range := page_range
      orientation := orientation
      color_mode := color_mode
      cost := total_cost },
   { cost := total_cost, pages := actual_pages, price_per_page := price_per_page })

/-- Response body of `/api/payment-status` (src/app.py lines 294-299). -/
structure PayStatus where
  paid : ℚ
  cost : ℚ
  remaining : ℚ
  can_print : Bool
deriving DecidableEq

/-- `payment_status` (src/app.py lines 283-299).  Note the file check here is
Python `is not None`, i.e. `Option.isSome`. -/
def payment_status (job : Job) : PayStatus :=
  { paid := job.paid
    cost := job.cost
    remaining := max 0 (job.cost - job.paid)
    can_print :=
      decide (0 < job.cost) && decide (job.cost ≤ job.paid) &&
      job.file_path.isSome && decide (job.status = "uploaded") }

/-- Response body of `/api/pending-coin` (src/app.py lines 315-318). -/
structure PendingResp where
  pending_coin : Option ℚ
  has_pending : Bool
deriving DecidableEq

/-- `get_pending_coin` (src/app.py lines 301-318): a truthy pending coin older
than 30 seconds is cleared as a side effect of the query and reported absent. -/
def get_pending_coin (job : Job) (now : ℚ) : Job × PendingResp :=
  if py_truthy_num job.pending_coin && decide (now - job.pending_coin_time > 30) then
    ({ job with pending_coin := none }, { pending_coin := none, has_pending := false })
  else
    (job, { pending_coin := job.pending_coin, has_pending := job.pending_coin.isSome })

/-- Error outcomes of `/api/coin-inserted` (src/app.py lines 386-426). -/
inductive CoinError where
  | noFile
  | costNotCalculated
  | notAccepting
  | mismatch (pending : ℚ)
  | invalidValue
deriving DecidableEq

/-- Success body of `/api/coin-inserted` (src/app.py lines 454-461). -/
structure CoinOk where
  paid : ℚ
  cost : ℚ
  required : ℚ
  remaining : ℚ
  can_print : Bool
deriving DecidableEq

/-- Tail of `coin_inserted` after a coin value has been accepted
(src/app.py lines 436-461): credits the value to `paid` and builds the
response; its `can_print` omits the file-path conjunct. -/
def coin_credit (job : Job) (coin_value : ℚ) : Job × Except CoinError CoinOk :=
  let job' := { job with paid := job.paid + coin_value }
  (job',
   Except.ok
     { paid := job'.paid
       cost := job'.cost
       required := job'.cost
       remaining := max 0 (job'.cost - job'.paid)
       can_print :=
         decide (job'.cost ≤ job'.paid) && decide (0 < job'.cost) &&
         decide (job'.status = "uploaded") })

/-- `coin_inserted` (src/app.py lines 371-461): web confirmation of a coin.
Preconditions (file uploaded, cost calculated, status `uploaded`) are checked
first; with a truthy pending coin the requested value must match it exactly,
the pending coin is cleared and credited; with no (truthy) pending coin a
positive requested value is credited as a manual/test insertion and a
non-positive one is rejected.  Error paths leave the job unchanged. -/
def coin_inserted (job : Job) (requested_value : ℚ) : Job × Except CoinError CoinOk :=
  if py_truthy_str job.file_path = false then
    (job, Except.error CoinError.noFile)
  else if job.cost ≤ 0 then
    (job, Except.error CoinError.costNotCalculated)
  else if job.status ≠ "uploaded" then
    (job, Except.error CoinError.notAccepting)
  else if py_truthy_num job.pending_coin then
    let p := job.pending_coin.getD 0
    if requested_value ≠ p then
      (job, Except.error (CoinError.mismatch p))
    else
      coin_credit { job with pending_coin := none } p
  else if requested_value ≤ 0 then
    (job, Except.error CoinError.invalidValue)
  else
    coin_credit job requested_value

/-- Error outcomes of `/api/start-print` (src/app.py lines 476-488). -/
inductive PrintError where
  | costNotCalculated
  | insufficientPayment
  | jobNotReady
  | noFile
deriving DecidableEq

/-- `start_print` (src/app.py lines 470-507): the print-authorization gate.
Checks in order: cost calculated, sufficient payment, status `uploaded`,
truthy file path; on success the status becomes `printing`. -/
def start_print (job : Job) : Job × Except PrintError Unit :=
  if job.cost ≤ 0 then
    (job, Except.error PrintError.costNotCalculated)
  else if job.paid < job.cost then
    (job, Except.error PrintError.insufficientPayment)
  else if job.status ≠ "uploaded" then
    (job, Except.error PrintError.jobNotReady)
  else if py_truthy_str job.file_path = false then
    (job, Except.error PrintError.noFile)
  else
    ({ job with status := "printing" }, Except.ok ())

/-- `print_job_thread` (src/app.py lines 547-608), as the final job state it
leaves behind: on spooler success the status passes through `completed` and
ends `idle` with `paid` reset to 0; on failure the status becomes `error`. -/
def print_job_thread (job : Job) (spooler_success : Bool) : Job :=
  let pages_to_print : ℤ :=
    match job.page_range with
    | some (PageRange.range s e) => e - s + 1
    | _ => job.pages
  let total := pages_to_print * job.copies
  let job1 := { job with total_pages := total, current_page := 0 }
  if spooler_success then
    { job1 with current_page := total, paid := 0, status := "idle" }
  else
    { job1 with status := "error" }

/-- `coin_inserted_callback` (src/app.py lines 610-640): hardware detection
stores the coin as pending with its detection timestamp. -/
def coin_inserted_callback (job : Job) (coin_value : ℚ) (now : ℚ) : Job :=
  { job with pending_coin := some coin_value, pending_coin_time := now }

/-- Folds a list of hardware detections (value, time) over the job. -/
def apply_detections (job : Job) (events : List (ℚ × ℚ)) : Job :=
  events.foldl (fun j e => coin_inserted_callback j e.1 e.2) job

/-- Delivers a list of decoded coin values to the job through the hardware
callback at one instant. -/
def deliver_coins (job : Job) (coins : List ℚ) (now : ℚ) : Job :=
  coins.foldl (fun j v => coin_inserted_callback j v now) job

/-- `self.pulse_timeout` (src/modules/payment_system.py line 24). -/
def pulse_timeout : ℚ := 3 / 2

/-- Decoder state of `PaymentSystem` (src/modules/payment_system.py lines
20-29): pulse counter, last-pulse timestamp, and the deadline of the armed
finalization timer (if any). -/
structure PaymentState where
  pulse_count : ℕ
  last_pulse_time : ℚ
  timer : Option ℚ
deriving DecidableEq

/-- `_determine_coin_value` (src/modules/payment_system.py lines 165-181):
pulse counts 1, 5, 10, 20 map to their peso value; anything else yields 0. -/
def determine_coin_value (pulse_count : ℕ) : ℚ :=
  if pulse_count = 1 then 1
  else if pulse_count = 5 then 5
  else if pulse_count = 10 then 10
  else if pulse_count = 20 then 20
  else 0

/-- `_process_coin_now` (src/modules/payment_system.py lines 134-163):
finalizes the current pulse sequence; emits the decoded value to the callback
when it is positive, and resets the pulse count.  The returned list holds the
coin values emitted to the registered callback. -/
def process_coin_now (s : PaymentState) : PaymentState × List ℚ :=
  if 0 < s.pulse_count then
    let coin_value := determine_coin_value s.pulse_count
    ({ s with pulse_count := 0 }, if 0 < coin_value then [coin_value] else [])
  else
    (s, [])

/-- `_coin_pulse_callback` (src/modules/payment_system.py lines 93-127): on a
hardware falling edge, if the elapsed time since the last pulse exceeds the
pulse timeout, any previous sequence is finalized and a new one starts at 1;
otherwise the current sequence continues.  The last-pulse timestamp is updated
and the finalization timer re-armed on every edge. -/
def coin_pulse_callback (s : PaymentState) (now : ℚ) : PaymentState × List ℚ :=
  let time_since_last := now - s.last_pulse_time
  if pulse_timeout < time_since_last then
    let prev := if 0 < s.pulse_count then process_coin_now s else (s, [])
    ({ prev.1 with
        pulse_count := 1
        last_pulse_time := now
        timer := some (now + pulse_timeout) },
     prev.2)
  else
    ({ s with
        pulse_count := s.pulse_count + 1
        last_pulse_time := now
        timer := some (now + pulse_timeout) },
     [])

/-- `_process_coin` (src/modules/payment_system.py lines 129-132): the timer
fires and finalizes the pending sequence. -/
def process_coin_timer (s : PaymentState) : PaymentState × List ℚ :=
  process_coin_now s

/-- `PaymentSystem.reset` (src/modules/payment_system.py lines 189-194). -/
def payment_reset (s : PaymentState) : PaymentState :=
  { s with pulse_count := 0, last_pulse_time := 0 }

/-- The paid/cost nonnegativity invariant of the spec. -/
abbrev PayInv (job : Job) : Prop := 0 ≤ job.paid ∧ 0 ≤ job.cost

/-- Shared characterization: the print-start authorization succeeds exactly
when all four validation checks pass. -/
theorem start_print_ok_iff (job : Job) :
    (start_print job).2 = Except.ok () ↔
      (0 < job.cost ∧ job.cost ≤ job.paid ∧ job.status = "uploaded" ∧
        py_truthy_str job.file_path = true) := by
  unfold start_print
  split_ifs with h1 h2 h3 h4 <;> simp_all [not_lt, not_le]

/-- A concrete fully-paid uploaded job, used to instantiate theorems. -/
def jobA : Job :=
  { upload ("uploads/a.pdf") ("document") 2 with cost := 10, paid := 10 }

/-- A concrete underpaid uploaded job, used to instantiate theorems. -/
def jobB : Job :=
  { upload ("uploads/b.pdf") ("document") 2 with cost := 10, paid := 5 }

/-- C1: print-start authorization succeeds iff cost > 0, paid ≥ cost,
status is `uploaded` and a file path is present; on failure the rejection
reason is the first failing check in the order: cost calculated,
sufficient payment, job ready, file present. -/
theorem startPrint_authorization_iff_and_order (job : Job) :
    ((start_print job).2 = Except.ok () ↔
      (0 < job.cost ∧ job.cost ≤ job.paid ∧ job.status = "uploaded" ∧
        py_truthy_str job.file_path = true))
    ∧ (job.cost ≤ 0 →
        (start_print job).2 = Except.error PrintError.costNotCalculated)
    ∧ (0 < job.cost → job.paid < job.cost →
        (start_print job).2 = Except.error PrintError.insufficientPayment)
    ∧ (0 < job.cost → job.cost ≤ job.paid → job.status ≠ "uploaded" →
        (start_print job).2 = Except.error PrintError.jobNotReady)
    ∧ (0 < job.cost → job.cost ≤ job.paid → job.status = "uploaded" →
        py_truthy_str job.file_path = false →
        (start_print job).2 = Except.error PrintError.noFile) := by
  refine ⟨start_print_ok_iff job, ?_, ?_, ?_, ?_⟩ <;>
    · intros
      unfold start_print
      split_ifs <;> simp_all [not_lt, not_le] <;> linarith

/-- C1 witness: on the concrete underpaid job the hypotheses of the
insufficient-payment clause hold and the gate rejects accordingly. -/
theorem startPrint_authorization_iff_and_order_witness :
    (0 < jobB.cost ∧ jobB.paid < jobB.cost) ∧
      (start_print jobB).2 = Except.error PrintError.insufficientPayment :=
  ⟨⟨by decide, by decide⟩,
    (startPrint_authorization_iff_and_order jobB).2.2.1 (by decide) (by decide)⟩

/-- Shared branch lemma: with the preconditions met and a truthy pending coin,
a confirmation repeating exactly the pending value clears it and credits it. -/
theorem coin_inserted_pending_match (job : Job) (p : ℚ)
    (hfile : py_truthy_str job.file_path = true)
    (hcost : 0 < job.cost)
    (hstatus : job.status = "uploaded")
    (hpend : job.pending_coin = some p)
    (hp : p ≠ 0) :
    coin_inserted job p = coin_credit { job with pending_coin := none } p := by
  unfold coin_inserted
  rw [if_neg (by simp [hfile]), if_neg (not_le.mpr hcost), if_neg (by simp [hstatus]),
    if_pos (by simp [py_truthy_num, hpend, hp]), hpend]
  simp

/-- Shared branch lemma: with the preconditions met and a truthy pending coin,
a confirmation with a different value is rejected and the job is unchanged. -/
theorem coin_inserted_pending_mismatch (job : Job) (p v : ℚ)
    (hfile : py_truthy_str job.file_path = true)
    (hcost : 0 < job.cost)
    (hstatus : job.status = "uploaded")
    (hpend : job.pending_coin = some p)
    (hp : p ≠ 0)
    (hne : v ≠ p) :
    coin_inserted job v = (job, Except.error (CoinError.mismatch p)) := by
  unfold coin_inserted
  rw [if_neg (by simp [hfile]), if_neg (not_le.mpr hcost), if_neg (by simp [hstatus]),
    if_pos (by simp [py_truthy_num, hpend, hp]), hpend]
  simp [hne]

/-- Shared branch lemma: with the preconditions met and no truthy pending
coin, a positive requested value is credited as a manual insertion. -/
theorem coin_inserted_no_pending_pos (job : Job) (v : ℚ)
    (hfile : py_truthy_str job.file_path = true)
    (hcost : 0 < job.cost)
    (hstatus : job.status = "uploaded")
    (hpend : py_truthy_num job.pending_coin = false)
    (hv : 0 < v) :
    coin_inserted job v = coin_credit job v := by
  unfold coin_inserted
  rw [if_neg (by simp [hfile]), if_neg (not_le.mpr hcost), if_neg (by simp [hstatus]),
    if_neg (by simp [hpend]), if_neg (not_le.mpr hv)]

/-- Shared branch lemma: with the preconditions met and no truthy pending
coin, a non-positive requested value is rejected and the job is unchanged. -/
theorem coin_inserted_no_pending_nonpos (job : Job) (v : ℚ)
    (hfile : py_truthy_str job.file_path = true)
    (hcost : 0 < job.cost)
    (hstatus : job.status = "uploaded")
    (hpend : py_truthy_num job.pending_coin = false)
    (hv : v ≤ 0) :
    coin_inserted job v = (job, Except.error CoinError.invalidValue) := by
  unfold coin_inserted
  rw [if_neg (by simp [hfile]), if_neg (not_le.mpr hcost), if_neg (by simp [hstatus]),
    if_neg (by simp [hpend]), if_pos hv]

/-- A concrete uploaded job with a pending ₱10 hardware coin and cost ₱60. -/
def jobPend10 : Job :=
  { upload ("uploads/c.pdf") ("document") 3 with
      cost := 60, pending_coin := some 10, pending_coin_time := 0 }

/-- C2 counterexample: after a successful confirmation of the pending ₱10
coin, an immediately repeated confirmation with the same value 10 does not
fail: it is accepted through the manual-insertion branch of `coin_inserted`
and credits a second time, so paid goes 0 → 10 → 20. -/
theorem coin_confirm_duplicate_double_credits :
    except_is_ok (coin_inserted jobPend10 10).2 = true
    ∧ (coin_inserted jobPend10 10).1.paid = 10
    ∧ (coin_inserted jobPend10 10).1.pending_coin = none
    ∧ except_is_ok (coin_inserted (coin_inserted jobPend10 10).1 10).2 = true
    ∧ (coin_inserted (coin_inserted jobPend10 10).1 10).1.paid = 20 := by
  have e1 : coin_inserted jobPend10 10
      = coin_credit { jobPend10 with pending_coin := none } 10 :=
    coin_inserted_pending_match jobPend10 10 (by decide) (by decide) (by decide)
      (by decide) (by decide)
  have h1 : (coin_inserted jobPend10 10).1
      = { jobPend10 with pending_coin := none, paid := jobPend10.paid + 10 } := by
    rw [e1]; rfl
  have e2 : coin_inserted { jobPend10 with pending_coin := none, paid := jobPend10.paid + 10 } 10
      = coin_credit { jobPend10 with pending_coin := none, paid := jobPend10.paid + 10 } 10 :=
    coin_inserted_no_pending_pos _ 10 (by decide) (by decide) (by decide) rfl
      (by decide)
  refine ⟨by rw [e1]; rfl, ?_, by rw [h1], by rw [h1, e2]; rfl, ?_⟩
  · rw [h1]
    norm_num [jobPend10, upload]
  · rw [h1, e2]
    show (jobPend10.paid + 10) + 10 = 20
    norm_num [jobPend10, upload]

/-- C2 amended: confirming a pending coin credits it and clears the pending
slot; a duplicate confirmation carrying no positive value (value 0) is
rejected with the invalid-value error and leaves paid unchanged, but a
duplicate confirmation repeating the same positive value is accepted again
through the manual-insertion branch and credits the value a second time, so
the coin is credited exactly once only when the duplicate carries no positive
value. -/
theorem coin_confirm_duplicate_behavior (job : Job) (p : ℚ)
    (hfile : py_truthy_str job.file_path = true)
    (hcost : 0 < job.cost)
    (hstatus : job.status = "uploaded")
    (hpend : job.pending_coin = some p)
    (hp : 0 < p) :
    except_is_ok (coin_inserted job p).2 = true
    ∧ (coin_inserted job p).1.paid = job.paid + p
    ∧ (coin_inserted job p).1.pending_coin = none
    ∧ coin_inserted (coin_inserted job p).1 0
        = ((coin_inserted job p).1, Except.error CoinError.invalidValue)
    ∧ (coin_inserted (coin_inserted job p).1 0).1.paid = job.paid + p
    ∧ except_is_ok (coin_inserted (coin_inserted job p).1 p).2 = true
    ∧ (coin_inserted (coin_inserted job p).1 p).1.paid = job.paid + p + p := by
  have e1 : coin_inserted job p = coin_credit { job with pending_coin := none } p :=
    coin_inserted_pending_match job p hfile hcost hstatus hpend hp.ne'
  have h1 : (coin_inserted job p).1
      = { job with pending_coin := none, paid := job.paid + p } := by
    rw [e1]; rfl
  have e2 : coin_inserted { job with pending_coin := none, paid := job.paid + p } 0
      = ({ job with pending_coin := none, paid := job.paid + p }, Except.error CoinError.invalidValue) :=
    coin_inserted_no_pending_nonpos _ 0 hfile hcost hstatus rfl le_rfl
  have e3 : coin_inserted { job with pending_coin := none, paid := job.paid + p } p
      = coin_credit { job with pending_coin := none, paid := job.paid + p } p :=
    coin_inserted_no_pending_pos _ p hfile hcost hstatus rfl hp
  refine ⟨by rw [e1]; rfl, by rw [h1], by rw [h1], by rw [h1, e2], by rw [h1, e2],
    by rw [h1, e3]; rfl, ?_⟩
  rw [h1, e3]
  show (job.paid + p) + p = job.paid + p + p
  rfl

/-- C2 witness: the amended behavior instantiated on the concrete job with a
pending ₱10 coin; the duplicate ₱10 confirmation credits a second time. -/
theorem coin_confirm_duplicate_behavior_witness :
    (py_truthy_str jobPend10.file_path = true ∧ 0 < jobPend10.cost
      ∧ jobPend10.status = "uploaded" ∧ jobPend10.pending_coin = some 10
      ∧ (0:ℚ) < 10)
    ∧ (coin_inserted (coin_inserted jobPend10 10).1 10).1.paid
        = jobPend10.paid + 10 + 10 :=
  ⟨⟨by decide, by decide, by decide, by decide, by decide⟩,
   (coin_confirm_duplicate_behavior jobPend10 10 (by decide) (by decide)
      (by decide) (by decide) (by decide)).2.2.2.2.2.2⟩

/-- Helper: folding any sequence of hardware detections over a job never
changes the paid amount. -/
theorem apply_detections_paid (job : Job) (events : List (ℚ × ℚ)) :
    (apply_detections job events).paid = job.paid := by
  induction events generalizing job with
  | nil => rfl
  | cons e rest ih =>
      have h := ih { job with pending_coin := some e.1, pending_coin_time := e.2 }
      simpa [apply_detections, coin_inserted_callback, List.foldl] using h

/-- C3: the hardware-detection callback only sets the pending coin and its
detection timestamp; paid, cost and status are unchanged by detection alone,
and any sequence of detections leaves paid unchanged. -/
theorem hardware_detection_frame (job : Job) (v now : ℚ) :
    coin_inserted_callback job v now
      = { job with pending_coin := some v, pending_coin_time := now }
    ∧ (coin_inserted_callback job v now).paid = job.paid
    ∧ (coin_inserted_callback job v now).cost = job.cost
    ∧ (coin_inserted_callback job v now).status = job.status
    ∧ ∀ events : List (ℚ × ℚ), (apply_detections job events).paid = job.paid :=
  ⟨rfl, rfl, rfl, rfl, fun events => apply_detections_paid job events⟩

/-- C4: finalizing a pulse sequence with N > 0 pulses: when N ∈ {1,5,10,20},
exactly one coin event of value N pesos is emitted and the pulse count is
reset to 0; otherwise no event is emitted, the job (payment ledger) is left
untouched by the (empty) event delivery, and the pulse count is still reset
to 0. -/
theorem pulse_finalization_decoding (s : PaymentState) (h : 0 < s.pulse_count) :
    ((s.pulse_count = 1 ∨ s.pulse_count = 5 ∨ s.pulse_count = 10 ∨ s.pulse_count = 20) →
      (process_coin_now s).2 = [(s.pulse_count : ℚ)]
      ∧ (process_coin_now s).1.pulse_count = 0)
    ∧ ((s.pulse_count ≠ 1 ∧ s.pulse_count ≠ 5 ∧ s.pulse_count ≠ 10 ∧ s.pulse_count ≠ 20) →
      (process_coin_now s).2 = []
      ∧ (process_coin_now s).1.pulse_count = 0
      ∧ ∀ (job : Job) (now : ℚ), deliver_coins job (process_coin_now s).2 now = job) := by
  constructor
  · rintro (h1 | h1 | h1 | h1) <;>
      · constructor
        · simp [process_coin_now, determine_coin_value, h, h1]
        · simp [process_coin_now, h]
  · rintro ⟨h1, h5, h10, h20⟩
    have hv : determine_coin_value s.pulse_count = 0 := by
      simp [determine_coin_value, h1, h5, h10, h20]
    have hev : (process_coin_now s).2 = [] := by
      simp [process_coin_now, h, hv]
    exact ⟨hev, by simp [process_coin_now, h], fun job now => by
      rw [hev]; rfl⟩

/-- C4 witness: a finalized sequence of 5 pulses emits exactly the single coin
event ₱5 and resets the counter. -/
theorem pulse_finalization_decoding_witness :
    (0 < (⟨5, 0, none⟩ : PaymentState).pulse_count)
    ∧ (process_coin_now ⟨5, 0, none⟩).2 = [((⟨5, 0, none⟩ : PaymentState).pulse_count : ℚ)]
    ∧ (process_coin_now ⟨5, 0, none⟩).1.pulse_count = 0 :=
  ⟨by decide,
   ((pulse_finalization_decoding ⟨5, 0, none⟩ (by decide)).1
      (Or.inr (Or.inl rfl))).1,
   ((pulse_finalization_decoding ⟨5, 0, none⟩ (by decide)).1
      (Or.inr (Or.inl rfl))).2⟩

/-- C5: the cost returned by `calculate_cost` equals actual pages times
per-page price, where actual pages is copies × pageCount when the page range
is 'all' or absent and copies × (end − start + 1) otherwise (no bounds
validation anywhere), and the per-page price is the color price exactly when
the color mode is "color"; concretely, pages 3, copies 2, color, range 'all'
yields cost 60. -/
theorem calculate_cost_formula (job : Job) (pages copies : ℤ)
    (cm orient : String) (pr : Option PageRange) :
    ((calculate_cost job pages copies cm orient pr).2.cost
      = ((match pr with
          | some (PageRange.range s e) => copies * (e - s + 1)
          | _ => copies * pages : ℤ) : ℚ)
        * (if cm = "color" then PRICE_PER_PAGE_COLOR else PRICE_PER_PAGE_BW))
    ∧ (calculate_cost job pages copies cm orient pr).1.cost
      = (calculate_cost job pages copies cm orient pr).2.cost
    ∧ (calculate_cost job 3 2 ("color") ("portrait") (some PageRange.all)).2.cost = 60 := by
  refine ⟨?_, rfl, ?_⟩
  · cases pr with
    | none => simp [calculate_cost]; ring_nf
    | some r =>
        cases r with
        | all => simp [calculate_cost]; ring_nf
        | range s e => simp [calculate_cost]; ring_nf
  · norm_num [calculate_cost, PRICE_PER_PAGE_COLOR]

/-- C6: with the payment preconditions met and a pending coin of value p,
confirming a different value v is rejected with the mismatch error and the
job is unchanged: the pending coin is still present with its original value
and paid is untouched. -/
theorem coin_mismatch_rejected (job : Job) (p v : ℚ)
    (hfile : py_truthy_str job.file_path = true)
    (hcost : 0 < job.cost)
    (hstatus : job.status = "uploaded")
    (hpend : job.pending_coin = some p)
    (hp : p ≠ 0)
    (hne : v ≠ p) :
    coin_inserted job v = (job, Except.error (CoinError.mismatch p))
    ∧ (coin_inserted job v).1.pending_coin = some p
    ∧ (coin_inserted job v).1.paid = job.paid := by
  have h := coin_inserted_pending_mismatch job p v hfile hcost hstatus hpend hp hne
  exact ⟨h, by rw [h]; exact hpend, by rw [h]⟩

/-- C6 witness: confirming ₱5 while the pending coin is ₱10 on the concrete
job is rejected with the mismatch error and changes nothing. -/
theorem coin_mismatch_rejected_witness :
    (py_truthy_str jobPend10.file_path = true ∧ 0 < jobPend10.cost
      ∧ jobPend10.status = "uploaded" ∧ jobPend10.pending_coin = some 10
      ∧ (10:ℚ) ≠ 0 ∧ (5:ℚ) ≠ 10)
    ∧ coin_inserted jobPend10 5 = (jobPend10, Except.error (CoinError.mismatch 10)) :=
  ⟨⟨by decide, by decide, by decide, by decide, by decide, by decide⟩,
   (coin_mismatch_rejected jobPend10 10 5 (by decide) (by decide) (by decide)
      (by decide) (by decide) (by decide)).1⟩

/-- C7: a (truthy) pending coin older than 30 seconds is cleared as a side
effect of the pending-coin query itself and reported absent; a subsequent
confirmation with no stated value (0) then fails with the invalid-value
precondition error without crediting paid.  Even without the query, a
confirmation with value 0 while the pending coin is still stored fails (as a
mismatch) and never credits paid. -/
theorem pending_coin_expiry_blocks_stale_confirm (job : Job) (now : ℚ)
    (hpend : py_truthy_num job.pending_coin = true)
    (hold : 30 < now - job.pending_coin_time)
    (hfile : py_truthy_str job.file_path = true)
    (hcost : 0 < job.cost)
    (hstatus : job.status = "uploaded") :
    (get_pending_coin job now).2 = { pending_coin := none, has_pending := false }
    ∧ (get_pending_coin job now).1 = { job with pending_coin := none }
    ∧ coin_inserted (get_pending_coin job now).1 0
        = ((get_pending_coin job now).1, Except.error CoinError.invalidValue)
    ∧ (coin_inserted (get_pending_coin job now).1 0).1.paid = job.paid
    ∧ except_is_ok (coin_inserted job 0).2 = false
    ∧ (coin_inserted job 0).1.paid = job.paid := by
  have hgp : get_pending_coin job now
      = ({ job with pending_coin := none }, { pending_coin := none, has_pending := false }) := by
    unfold get_pending_coin
    rw [if_pos]
    simp [hpend, hold]
  obtain ⟨p, hp_eq, hp_ne⟩ : ∃ p, job.pending_coin = some p ∧ p ≠ 0 := by
    cases hpc : job.pending_coin with
    | none => rw [hpc] at hpend; simp [py_truthy_num] at hpend
    | some q =>
        refine ⟨q, rfl, ?_⟩
        rw [hpc] at hpend
        simpa [py_truthy_num] using hpend
  have h2 : coin_inserted { job with pending_coin := none } 0
      = ({ job with pending_coin := none }, Except.error CoinError.invalidValue) :=
    coin_inserted_no_pending_nonpos _ 0 hfile hcost hstatus rfl le_rfl
  have h3 : coin_inserted job 0 = (job, Except.error (CoinError.mismatch p)) :=
    coin_inserted_pending_mismatch job p 0 hfile hcost hstatus hp_eq hp_ne
      (Ne.symm hp_ne)
  refine ⟨by rw [hgp], by rw [hgp], by rw [hgp]; exact h2, by rw [hgp, h2],
    by rw [h3]; rfl, by rw [h3]⟩

/-- C7 witness: the pending ₱10 coin detected at t = 0 has expired by the
query at t = 31; the ensuing confirmation with value 0 fails with the
invalid-value error. -/
theorem pending_coin_expiry_blocks_stale_confirm_witness :
    (py_truthy_num jobPend10.pending_coin = true
      ∧ 30 < (31:ℚ) - jobPend10.pending_coin_time
      ∧ py_truthy_str jobPend10.file_path = true ∧ 0 < jobPend10.cost
      ∧ jobPend10.status = "uploaded")
    ∧ coin_inserted (get_pending_coin jobPend10 31).1 0
        = ((get_pending_coin jobPend10 31).1, Except.error CoinError.invalidValue) :=
  ⟨⟨by decide, by norm_num [jobPend10, upload], by decide, by decide, by decide⟩,
   (pending_coin_expiry_blocks_stale_confirm jobPend10 31 (by decide)
      (by norm_num [jobPend10, upload]) (by decide) (by decide) (by decide)).2.2.1⟩

/-- Shared branch lemma: an edge within the pulse timeout continues the
current sequence: count +1, timestamp updated, timer re-armed, no emission. -/
theorem coin_pulse_continue (s : PaymentState) (now : ℚ)
    (h : ¬ pulse_timeout < now - s.last_pulse_time) :
    coin_pulse_callback s now
      = ({ s with
            pulse_count := s.pulse_count + 1
            last_pulse_time := now
            timer := some (now + pulse_timeout) }, []) := by
  unfold coin_pulse_callback
  rw [if_neg h]

/-- Decoder state in the middle of a pulse sequence: one pulse counted at
time 100, finalization timer armed. -/
def bounceState : PaymentState :=
  { pulse_count := 1, last_pulse_time := 100, timer := some 100 }

/-- C8 counterexample: an edge arriving 5 ms after the previous pulse is not
discarded: the pulse count increments, the last-pulse timestamp moves and the
timer is re-armed, so the decoder state changes. -/
theorem sub10ms_edge_changes_state :
    ((100:ℚ) + 1/200) - bounceState.last_pulse_time < 1/100
    ∧ (coin_pulse_callback bounceState (100 + 1/200)).1.pulse_count = 2
    ∧ (coin_pulse_callback bounceState (100 + 1/200)).1.last_pulse_time = 100 + 1/200
    ∧ (coin_pulse_callback bounceState (100 + 1/200)).1 ≠ bounceState := by
  have h : ¬ pulse_timeout < ((100:ℚ) + 1/200) - bounceState.last_pulse_time := by
    norm_num [bounceState, pulse_timeout]
  have e := coin_pulse_continue bounceState (100 + 1/200) h
  refine ⟨by norm_num [bounceState], by rw [e]; rfl, by rw [e], ?_⟩
  rw [e]
  intro heq
  have : (2:ℕ) = 1 := congrArg PaymentState.pulse_count heq
  exact absurd this (by decide)

/-- C8 amended: the pulse callback has no sub-10 ms bounce filter: an edge
whose elapsed time since the previous pulse is below 10 ms (hence below the
1.5 s pulse timeout) is counted as a continuation pulse — the pulse count
increments by one, the last-pulse timestamp is set to the edge time, the
finalization timer is re-armed, and no coin event is emitted; bounce
suppression is delegated to the 30 ms hardware `bouncetime` configured on the
GPIO event detection, outside this callback. -/
theorem sub10ms_edge_counted (s : PaymentState) (now : ℚ)
    (h : now - s.last_pulse_time < 1/100) :
    coin_pulse_callback s now
      = ({ s with
            pulse_count := s.pulse_count + 1
            last_pulse_time := now
            timer := some (now + pulse_timeout) }, []) :=
  coin_pulse_continue s now (by unfold pulse_timeout; linarith)

/-- C8 witness: the amended behavior at the concrete mid-sequence state and
an edge 5 ms later. -/
theorem sub10ms_edge_counted_witness :
    ((100:ℚ) + 1/200) - bounceState.last_pulse_time < 1/100
    ∧ coin_pulse_callback bounceState (100 + 1/200)
        = ({ bounceState with
              pulse_count := bounceState.pulse_count + 1
              last_pulse_time := 100 + 1/200
              timer := some ((100 + 1/200) + pulse_timeout) }, []) :=
  ⟨by norm_num [bounceState],
   sub10ms_edge_counted bounceState (100 + 1/200) (by norm_num [bounceState])⟩

/-- A freshly uploaded 3-page job (paid = cost = 0). -/
def jobFresh : Job := upload ("uploads/doc.pdf") ("document") 3

/-- C9 counterexample: `calculate_cost` with copies = -1 takes a job
satisfying paid ≥ 0 ∧ cost ≥ 0 to one whose cost is -15 < 0: the invariant is
not preserved for arbitrary copies values. -/
theorem negative_copies_break_nonneg_cost :
    (0 ≤ jobFresh.paid ∧ 0 ≤ jobFresh.cost)
    ∧ (calculate_cost jobFresh 3 (-1) ("grayscale") ("portrait") none).1.cost < 0 := by
  refine ⟨⟨by decide, by decide⟩, ?_⟩
  norm_num [calculate_cost, jobFresh, upload, PRICE_PER_PAGE_BW]
  rw [if_neg (by decide)]
  norm_num

/-- C9 amended: every exposed operation preserves paid ≥ 0 ∧ cost ≥ 0,
provided `calculate_cost` receives nonnegative pages and copies and a
non-inverted page range (start ≤ end + 1), and any pending coin carries a
nonnegative value; with arbitrary inputs (e.g. negative copies) the cost can
go negative. -/
theorem operations_preserve_nonneg_amounts :
    (∀ path ftype pages, PayInv (upload path ftype pages))
    ∧ (∀ job pages copies cm orient pr, PayInv job → 0 ≤ pages → 0 ≤ copies →
        (∀ s e, pr = some (PageRange.range s e) → s ≤ e + 1) →
        PayInv (calculate_cost job pages copies cm orient pr).1)
    ∧ (∀ job v, PayInv job → (∀ p, job.pending_coin = some p → 0 ≤ p) →
        PayInv (coin_inserted job v).1)
    ∧ (∀ job now, PayInv job → PayInv (get_pending_coin job now).1)
    ∧ (∀ job, PayInv job → PayInv (start_print job).1)
    ∧ (∀ job v now, PayInv job → PayInv (coin_inserted_callback job v now))
    ∧ (∀ job ok, PayInv job → PayInv (print_job_thread job ok)) := by
  refine ⟨?_, ?_, ?_, ?_, ?_, ?_, ?_⟩
  · intro path ftype pages
    exact ⟨le_refl 0, le_refl 0⟩
  · intro job pages copies cm orient pr hinv hpg hcp hr
    have hprice :
        0 ≤ (if cm = "color" then PRICE_PER_PAGE_COLOR else PRICE_PER_PAGE_BW) := by
      split_ifs <;> norm_num [PRICE_PER_PAGE_COLOR, PRICE_PER_PAGE_BW]
    refine ⟨hinv.1, ?_⟩
    cases pr with
    | none =>
        exact mul_nonneg (by exact_mod_cast mul_nonneg hpg hcp) hprice
    | some r =>
        cases r with
        | all =>
            exact mul_nonneg (by exact_mod_cast mul_nonneg hpg hcp) hprice
        | range s e =>
            have hse := hr s e rfl
            have hpos : (0:ℤ) ≤ (e - s + 1) * copies :=
              mul_nonneg (by linarith) hcp
            exact mul_nonneg (by exact_mod_cast hpos) hprice
  · intro job v hinv hpc
    unfold coin_inserted
    dsimp only
    split_ifs with h1 h2 h3 h4 h5 h6
    · exact hinv
    · exact hinv
    · exact hinv
    · exact hinv
    · have hgd : 0 ≤ job.pending_coin.getD 0 := by
        cases hopt : job.pending_coin with
        | none => simp
        | some q => simpa using hpc q hopt
      exact ⟨add_nonneg hinv.1 hgd, hinv.2⟩
    · exact hinv
    · exact ⟨add_nonneg hinv.1 (le_of_lt (not_le.mp h6)), hinv.2⟩
  · intro job now hinv
    unfold get_pending_coin
    split_ifs <;> exact hinv
  · intro job hinv
    unfold start_print
    split_ifs <;> exact hinv
  · intro job v now hinv
    exact hinv
  · intro job ok hinv
    unfold print_job_thread
    split_ifs
    · exact ⟨le_refl 0, hinv.2⟩
    · exact hinv

/-- C9 witness: the coin-confirmation clause instantiated on the fresh job
with a ₱5 manual insertion. -/
theorem operations_preserve_nonneg_amounts_witness :
    PayInv jobFresh ∧ PayInv (coin_inserted jobFresh 5).1 :=
  ⟨⟨by decide, by decide⟩,
   operations_preserve_nonneg_amounts.2.2.1 jobFresh 5 ⟨by decide, by decide⟩
     (fun p hp => by simp [jobFresh, upload] at hp)⟩

/-- Helper: a truthy file path is in particular not None. -/
theorem truthy_str_isSome {o : Option String} (h : py_truthy_str o = true) :
    o.isSome = true := by
  cases o <;> simp_all [py_truthy_str]

/-- A job identical to the fully-paid job except its file path is present but
empty, a state Python truthiness distinguishes from `is not None`. -/
def emptyPathJob : Job := { jobA with file_path := some ("") }

/-- C10 counterexample: with a present-but-empty file path, the
payment-status query reports can_print = true while the start-print checks
reject with the no-file error, so the two are not equivalent on every job
state. -/
theorem can_print_disagrees_on_empty_path :
    (payment_status emptyPathJob).can_print = true
    ∧ (start_print emptyPathJob).2 = Except.error PrintError.noFile :=
  ⟨by decide, by rfl⟩

/-- C10 amended: the payment-status can_print flag agrees with the start-print
authorization on every job state whose file path is not the empty string
(payment-status tests `is not None` where start-print tests truthiness, and
the two differ exactly on the empty string); the can_print flag returned by a
successful coin confirmation agrees with both on the post-confirmation state,
since a successful confirmation required a truthy file path. -/
theorem can_print_agreement (job : Job) (v : ℚ) :
    (job.file_path ≠ some ("") →
      ((payment_status job).can_print = true ↔ (start_print job).2 = Except.ok ()))
    ∧ (∀ j r, coin_inserted job v = (j, Except.ok r) →
        r.can_print = (payment_status j).can_print
        ∧ (r.can_print = true ↔ (start_print j).2 = Except.ok ())) := by
  constructor
  · intro hne
    rw [start_print_ok_iff]
    cases hfp : job.file_path with
    | none => simp [payment_status, py_truthy_str, hfp]
    | some str =>
        have hs : str ≠ "" := fun hcontra => hne (by rw [hfp, hcontra])
        simp [payment_status, py_truthy_str, hfp, hs]
        tauto
  · intro j r h
    unfold coin_inserted at h
    dsimp only at h
    split_ifs at h with h1 h2 h3 h4 h5 h6
    · simp at h
    · simp at h
    · simp at h
    · simp at h
    · have htrue : py_truthy_str job.file_path = true := by simpa using h1
      have hst : job.status = "uploaded" := not_not.mp h3
      simp only [coin_credit, Prod.mk.injEq] at h
      obtain ⟨hj, hr⟩ := h
      subst hj
      injection hr with hr2
      subst hr2
      constructor
      · simp [payment_status, truthy_str_isSome htrue, hst]
        exact Bool.and_comm _ _
      · rw [start_print_ok_iff]
        simp [hst, htrue]
        tauto
    · simp at h
    · have htrue : py_truthy_str job.file_path = true := by simpa using h1
      have hst : job.status = "uploaded" := not_not.mp h3
      simp only [coin_credit, Prod.mk.injEq] at h
      obtain ⟨hj, hr⟩ := h
      subst hj
      injection hr with hr2
      subst hr2
      constructor
      · simp [payment_status, truthy_str_isSome htrue, hst]
        exact Bool.and_comm _ _
      · rw [start_print_ok_iff]
        simp [hst, htrue]
        tauto

/-- C10 witness: the payment-status/start-print agreement instantiated on the
concrete fully-paid job with a nonempty path. -/
theorem can_print_agreement_witness :
    jobA.file_path ≠ some ("")
    ∧ ((payment_status jobA).can_print = true ↔ (start_print jobA).2 = Except.ok ()) :=
  ⟨by decide, (can_print_agreement jobA 0).1 (by decide)⟩
